import Mathlib

/-!
Verification of the autogen-reviewer-agent repository.

This file shallowly embeds the pure computational content of the repository's
five Python source files and settles the frozen claims C1..C10 about them.

Embedding conventions:
* Python strings are modelled as Lean `String` / `List Char` (sequences of
  code points; `len`, slicing and concatenation agree with Python for these).
* Python `int` values appearing here are natural numbers: every value the
  code produces at the relevant places is non-negative.
* The module-level environment configuration (reviewer/config.py) is a
  `Config` record: each field is the loaded environment value.
* Effectful operations (filesystem, subprocess, network) are modelled by
  explicit state passing (`Option HookFile` for the hook file) or by an oracle
  argument (`SubprocResult` for the ruff subprocess, an existence predicate for
  the filesystem); a function's observable "action" is an inductive value so
  that "the subprocess is never invoked" is expressible.
* The CPython expression `int(b * 0.70)` multiplies the exact integer `b` by
  the IEEE-754 binary64 value nearest to 0.70, rounds the product to the
  nearest binary64 (ties to even) and truncates; `pyFloatMulFloor` below
  computes exactly that over `Nat`.
-/

namespace ReviewerAgent

/-! ### Exact model of CPython binary64 multiplication by a float literal -/

/-- Round `n / 2 ^ s` to the nearest integer, ties to the even quotient.
This is the binary64 rounding step (round-to-nearest-even) expressed on an
exact scaled integer. -/
def roundNearestEven (n s : Nat) : Nat :=
  let q := n / 2 ^ s
  let r := n % 2 ^ s
  if 2 * r < 2 ^ s then q
  else if 2 ^ s < 2 * r then q + 1
  else if q % 2 = 0 then q else q + 1

/-- Fuel-bounded floor of the base-2 logarithm (`log2fuel fuel n` is
`Nat.log2 n` whenever `n < 2 ^ fuel`); written with structural fuel so the
kernel can evaluate it. -/
def log2fuel : Nat → Nat → Nat
  | 0, _ => 0
  | fuel + 1, n => if n < 2 then 0 else log2fuel fuel (n / 2) + 1

/-- `pyFloatMulFloor c e b` models the CPython expression `int(b * x)` where
`x` is a positive float literal whose binary64 value is exactly `c / 2 ^ e`
(with `2 ^ 52 ≤ c < 2 ^ 53`, i.e. `c` is the full 53-bit significand), and
`b` is a non-negative Python int small enough to convert to float exactly
(true for every budget in this repository).  The exact product is
`b * c / 2 ^ e`; it is rounded to the nearest binary64 — whose spacing at
magnitude `2 ^ k` is `2 ^ (k - 52)` — with ties to even, then truncated
toward zero. Valid for products in `[1, 2 ^ 75)`, which covers every use. -/
def pyFloatMulFloor (c e b : Nat) : Nat :=
  let n := b * c
  let k := log2fuel 128 n - e
  let m := roundNearestEven n (e + k - 52)
  if k ≤ 52 then m / 2 ^ (52 - k) else m * 2 ^ (k - 52)

/-- The 53-bit significand of the binary64 value of the literal `0.70`:
`0.70` stored as a double is exactly `6305039478318694 / 2 ^ 53`. -/
def c070 : Nat := 6305039478318694

/-- The 53-bit significand of the binary64 value of the literal `0.15`:
`0.15` stored as a double is exactly `5404319552844595 / 2 ^ 55`. -/
def c015 : Nat := 5404319552844595

/-! ### reviewer/config.py — environment configuration -/

/-- The environment-derived module configuration of `reviewer/config.py`.
Each field holds the value of the corresponding module-level constant after
`load_dotenv`; `MAX_TOKENS` is the parsed integer (default 4096). -/
structure Config where
  LLM_PROVIDER : String
  REVIEWER_MODEL : String
  MAX_TOKENS : Nat
  GITHUB_TOKEN : String
  OPENAI_API_KEY : String
  AZURE_ENDPOINT : String
  AZURE_API_KEY : String
  GITHUB_MODELS_BASE_URL : String

/-! ### reviewer/agent.py — budgets, truncation, message, client -/

/-- The dict `_MODEL_INPUT_LIMITS` of agent.py (GitHub Models per-model input
token limits); `none` models a key miss. -/
def _MODEL_INPUT_LIMITS (m : String) : Option Nat :=
  if m = "gpt-4o" then some 8000
  else if m = "gpt-4o-mini" then some 8000
  else if m = "gpt-5" then some 4000
  else if m = "gpt-5-mini" then some 4000
  else if m = "gpt-5-nano" then some 4000
  else none

/-- `_DEFAULT_INPUT_LIMIT` of agent.py. -/
def _DEFAULT_INPUT_LIMIT : Nat := 8000

/-- The dict `_MODEL_OUTPUT_LIMITS` of agent.py (output token caps). -/
def _MODEL_OUTPUT_LIMITS (m : String) : Option Nat :=
  if m = "gpt-4o" then some 4000
  else if m = "gpt-4o-mini" then some 4000
  else if m = "gpt-5" then some 4000
  else if m = "gpt-5-mini" then some 4000
  else if m = "gpt-5-nano" then some 4000
  else none

/-- `_DEFAULT_OUTPUT_LIMIT` of agent.py. -/
def _DEFAULT_OUTPUT_LIMIT : Nat := 4000

/-- `_effective_max_output_tokens` of agent.py: the lower of the configured
`MAX_TOKENS` and the model cap, except that azure uses `MAX_TOKENS` as is. -/
def _effective_max_output_tokens (cfg : Config) : Nat :=
  if cfg.LLM_PROVIDER = "azure" then cfg.MAX_TOKENS
  else min cfg.MAX_TOKENS
    ((_MODEL_OUTPUT_LIMITS cfg.REVIEWER_MODEL).getD _DEFAULT_OUTPUT_LIMIT)

/-- `_input_char_budget` of agent.py: 100000 for azure, otherwise
`max(input_limit - 400, 500) * 4`.  (All table entries are ≥ 4000, so the
Python subtraction never goes negative and `Nat` subtraction agrees.) -/
def _input_char_budget (cfg : Config) : Nat :=
  if cfg.LLM_PROVIDER = "azure" then 100000
  else
    (max ((_MODEL_INPUT_LIMITS cfg.REVIEWER_MODEL).getD _DEFAULT_INPUT_LIMIT - 400)
      500) * 4

/-- The truncation notice appended by `_truncate` of agent.py, as a list of
code points (36 characters). -/
def truncMarker : List Char := "\n\n... [truncated to fit token limit]".data

/-- `_truncate` of agent.py: return `text` unchanged if it fits in `budget`
characters, otherwise the first `budget` characters followed by the notice. -/
def _truncate (text : List Char) (budget : Nat) : List Char :=
  if text.length ≤ budget then text else text.take budget ++ truncMarker

/-- `diff_budget` computed inside `_build_review_message` of agent.py:
`int(budget * 0.70)` in CPython float arithmetic. -/
def diff_budget (cfg : Config) : Nat :=
  pyFloatMulFloor c070 53 (_input_char_budget cfg)

/-- `lint_budget` computed inside `_build_review_message` of agent.py:
`int(budget * 0.15)` in CPython float arithmetic. -/
def lint_budget (cfg : Config) : Nat :=
  pyFloatMulFloor c015 55 (_input_char_budget cfg)

/-- `fmt_budget` computed inside `_build_review_message` of agent.py:
`int(budget * 0.15)` in CPython float arithmetic. -/
def fmt_budget (cfg : Config) : Nat :=
  pyFloatMulFloor c015 55 (_input_char_budget cfg)

/-- The `CommitInfo` dataclass of reviewer/diff_collector.py. -/
structure CommitInfo where
  sha : List Char
  message : List Char
  diff : List Char
  changed_files : List (List Char)

/-- `chr(10).join("- " + f for f in files)` from `_build_review_message`. -/
def bulletJoin : List (List Char) → List Char
  | [] => []
  | [f] => "- ".data ++ f
  | f :: fs => "- ".data ++ f ++ "\n".data ++ bulletJoin fs

/-- `_build_review_message` of agent.py: the f-string assembling the user
message out of the (truncated) diff, lint and format-check outputs. -/
def _build_review_message (cfg : Config) (commit : CommitInfo)
    (lint fmtOut : List Char) : List Char :=
  "## Commit `".data ++ commit.sha.take 10 ++ "` — ".data ++ commit.message ++
    "\n\n### Changed files\n".data ++ bulletJoin commit.changed_files ++
    "\n\n### Git diff\n```diff\n".data ++ _truncate commit.diff (diff_budget cfg) ++
    "\n```\n\n### Ruff lint output\n```\n".data ++ _truncate lint (lint_budget cfg) ++
    "\n```\n\n### Ruff format check\n```\n".data ++ _truncate fmtOut (fmt_budget cfg) ++
    "\n```\n\nPlease review this commit.\n".data

/-- `pat.isPrefixOf`-style check on code-point lists, written out so the
kernel can always evaluate it (Python `str.startswith`). -/
def startsWithL : List Char → List Char → Bool
  | [], _ => true
  | _ :: _, [] => false
  | p :: ps, c :: cs => if p = c then startsWithL ps cs else false

/-- Python `sub.endswith(suf)` on code points. -/
def endsWithStr (s suf : String) : Bool :=
  startsWithL suf.data.reverse s.data.reverse

/-- Python `pat in s` substring containment on code points. -/
def containsSub (pat : List Char) : List Char → Bool
  | [] => pat.isEmpty
  | c :: rest => startsWithL pat (c :: rest) || containsSub pat rest

/-- Number of positions of `s` at which `pat` occurs as a substring (used to
state "the marker is present exactly once"). -/
def countOcc (pat : List Char) : List Char → Nat
  | [] => 0
  | c :: rest => (if startsWithL pat (c :: rest) then 1 else 0) + countOcc pat rest

/-- Python `AZURE_ENDPOINT.rstrip("/")`. -/
def rstripSlash (s : String) : String :=
  String.mk ((s.data.reverse.dropWhile (fun c => c = '/')).reverse)

/-- The azure credentials `RuntimeError` message of `_build_model_client`
(two adjacent source literals, concatenated as in the Python source). -/
def azureCredErr : String :=
  "AZURE_ENDPOINT and AZURE_API_KEY must be set in .env " ++
    "when LLM_PROVIDER=azure."

/-- The github credentials `RuntimeError` message of `_build_model_client`. -/
def githubCredErr : String :=
  "GITHUB_TOKEN is not set. " ++ "Add a GitHub PAT to .env (needs Copilot access)."

/-- The openai credentials `RuntimeError` message of `_build_model_client`. -/
def openaiCredErr : String :=
  "OPENAI_API_KEY is not set. " ++ "Copy .env.example to .env and add your key."

/-- The observable arguments of the `OpenAIChatCompletionClient` constructed
by `_build_model_client` (the azure branch additionally passes a constant
`model_info` dict, irrelevant to every claim). -/
structure ModelClientArgs where
  model : String
  api_key : String
  base_url : Option String
  max_tokens : Nat

/-- `_build_model_client` of agent.py; `raise RuntimeError(msg)` is modelled
as `Except.error msg`.  Python truthiness `not VAR` on these string settings
is `VAR = ""`. Note the openai branch is the default branch: it is taken for
every provider other than "azure" and "github". -/
def _build_model_client (cfg : Config) : Except String ModelClientArgs :=
  if cfg.LLM_PROVIDER = "azure" then
    if cfg.AZURE_API_KEY = "" ∨ cfg.AZURE_ENDPOINT = "" then
      .error azureCredErr
    else
      .ok ⟨cfg.REVIEWER_MODEL, cfg.AZURE_API_KEY,
        some (rstripSlash cfg.AZURE_ENDPOINT ++ "/openai/v1"),
        _effective_max_output_tokens cfg⟩
  else if cfg.LLM_PROVIDER = "github" then
    if cfg.GITHUB_TOKEN = "" then
      .error githubCredErr
    else
      .ok ⟨cfg.REVIEWER_MODEL, cfg.GITHUB_TOKEN,
        some cfg.GITHUB_MODELS_BASE_URL, _effective_max_output_tokens cfg⟩
  else
    if cfg.OPENAI_API_KEY = "" ∨ startsWithL "sk-...".data cfg.OPENAI_API_KEY.data then
      .error openaiCredErr
    else
      .ok ⟨cfg.REVIEWER_MODEL, cfg.OPENAI_API_KEY, none,
        _effective_max_output_tokens cfg⟩

/-- The observable start of `run_review` of agent.py: either the error string
returned to the caller, or the successfully built client. The gather /
network phase of `run_review` (git subprocesses, ruff, the team run) happens
strictly after — and only after — `clientBuilt`, so `errorReturn` implies no
network call was attempted. -/
inductive ReviewStart where
  | errorReturn (msg : String)
  | clientBuilt (client : ModelClientArgs)

/-- Lines 181–186 of agent.py: `run_review` builds the model client, catches
`RuntimeError` and returns `f"ERROR: {exc}"` instead of raising. -/
def run_review_start (cfg : Config) : ReviewStart :=
  match _build_model_client cfg with
  | .error e => .errorReturn ("ERROR: " ++ e)
  | .ok c => .clientBuilt c

/-! ### reviewer/lint_runner.py -/

/-- Outcome of the `subprocess.run` call inside `_invoke_ruff`: normal
completion with captured stdout/stderr, `FileNotFoundError`, or
`subprocess.TimeoutExpired` (the 60-second timeout). -/
inductive SubprocResult where
  | ok (stdout stderr : String)
  | fileNotFound
  | timedOut

/-- Python `str.strip()` (whitespace strip at both ends). -/
def isPySpace (c : Char) : Bool :=
  c = ' ' || c = '\t' || c = '\n' || c = '\r' || c = '\x0b' || c = '\x0c'

/-- Python `s.strip()`. -/
def pyStrip (s : String) : String :=
  String.mk (((s.data.dropWhile isPySpace).reverse.dropWhile isPySpace).reverse)

/-- `_invoke_ruff` of lint_runner.py, with the subprocess outcome passed as
an oracle. Both exception branches are caught and converted to strings, so
the function is total: the run as a whole never fails. -/
def _invoke_ruff (ruff_bin : String) (extra_args : List String)
    (repo_path : String) (files : List String) (res : SubprocResult) : String :=
  match res with
  | .ok out err =>
    let output := pyStrip (out ++ "\n" ++ err)
    if output = "" then "All checks passed ✓" else output
  | .fileNotFound =>
    "ruff not found at " ++ ruff_bin ++ ". Install it or set RUFF_BIN in .env."
  | .timedOut => "ruff timed out after 60 s."

/-- `_filter_python_files` of lint_runner.py: keep the changed files that end
in ".py" and exist under the repository root; `fsExists repo f` models
`(Path(repo) / f).exists()`. -/
def _filter_python_files (fsExists : String → String → Bool)
    (repo_path : String) (files : List String) : List String :=
  files.filter fun f => endsWithStr f ".py" && fsExists repo_path f

/-- The observable action of a lint-runner entry point: either the early
return with a skip message (no subprocess started), or an invocation of the
ruff subprocess with the given extra arguments and target files. -/
inductive RuffRun where
  | skipped (msg : String)
  | invoked (extra_args targets : List String)

/-- `run_ruff_check` of lint_runner.py, at the action level. -/
def run_ruff_check (fsExists : String → String → Bool)
    (repo_path : String) (files : List String) : RuffRun :=
  let target_files := _filter_python_files fsExists repo_path files
  if target_files = [] then
    .skipped "No Python files changed — linting skipped."
  else
    .invoked ["check", "--output-format=concise"] target_files

/-- `run_ruff_format_check` of lint_runner.py, at the action level. -/
def run_ruff_format_check (fsExists : String → String → Bool)
    (repo_path : String) (files : List String) : RuffRun :=
  let target_files := _filter_python_files fsExists repo_path files
  if target_files = [] then
    .skipped "No Python files changed — format check skipped."
  else
    .invoked ["format", "--check", "--diff"] target_files

/-! ### install_hooks.py -/

/-- The `MARKER` constant of install_hooks.py. -/
def MARKER : String := "# REVIEWER_AGENT_HOOK"

/-- The post-commit hook file: its text content and its permission bits. -/
structure HookFile where
  content : String
  mode : Nat

/-- `mode | stat.S_IEXEC | stat.S_IXGRP | stat.S_IXOTH` (0o100|0o010|0o001). -/
def execBits (mode : Nat) : Nat := mode ||| 73

/-- `install_hook` of install_hooks.py acting on the state of the
`.git/hooks/post-commit` file (`none` = file absent). `rendered` is the
rendered hook template `_rendered_hook()`; `createMode` is the mode a freshly
written file receives. If the existing file contains the marker the function
returns before the `chmod`, changing nothing. -/
def install_hook (rendered : String) (createMode : Nat) :
    Option HookFile → Option HookFile
  | some f =>
    if containsSub MARKER.data f.content.data then some f
    else some ⟨f.content ++ "\n" ++ rendered ++ "\n", execBits f.mode⟩
  | none =>
    some ⟨"#!/usr/bin/env bash\n" ++ MARKER ++ "\n" ++ rendered ++ "\n",
      execBits createMode⟩

/-- `uninstall_hook` of install_hooks.py on the hook-file state: delete the
file only when it contains the marker; otherwise (or when absent) leave the
state — content, path and mode — untouched. -/
def uninstall_hook : Option HookFile → Option HookFile
  | none => none
  | some f => if containsSub MARKER.data f.content.data then none else some f

/-- Content of the hook-file state (empty string when the file is absent). -/
def hookContent : Option HookFile → String
  | none => ""
  | some f => f.content

/-- Modelled from the spec: the file `hooks/post-commit.template` is not under
src/ (only `_rendered_hook` of install_hooks.py, which reads and renders it,
is). Per the spec, "the installed hook is a shell script containing a marker
string used to detect prior installation and avoid double-install"; since the
append branch of `install_hook` writes only the rendered template (plus
newlines) into a pre-existing hook, the rendered template itself must contain
the marker for the installed hook to contain it. This model is a concrete
rendered script containing the marker exactly once. -/
def renderedHookModel : String :=
  "# REVIEWER_AGENT_HOOK\ncd /opt/reviewer_agent || exit 0\n" ++
    "/opt/reviewer_agent/.venv/bin/python -m reviewer.agent . >/dev/null 2>&1 &"

/-- The observable outcome of `main` of install_hooks.py: `sys.exit(1)` when
no repositories were resolved, otherwise completion (exit 0) after acting on
the git repositories and skipping (with a warning) the non-git paths. -/
inductive MainOutcome where
  | exitOne
  | completed (actedOn skipped : List String)

/-- `main` of install_hooks.py: `repos` is the `--scan` results followed by
the resolved positional paths; exit 1 iff that list is empty, otherwise act
on each path that is a git repository and skip the rest. -/
def installerMain (scanRepos positional : List String)
    (isGitRepo : String → Bool) : MainOutcome :=
  let repos := scanRepos ++ positional
  if repos = [] then .exitOne
  else .completed (repos.filter isGitRepo) (repos.filter fun r => !isGitRepo r)

/-! ### Concrete configurations used by witnesses -/

/-- An azure configuration with no credentials set. -/
def exAzureCfg : Config :=
  ⟨"azure", "gpt-5", 4096, "", "", "", "", "https://models.inference.ai.azure.com"⟩

/-- A github configuration with a token set. -/
def exGithubCfg : Config :=
  ⟨"github", "gpt-5", 4096, "ghp-token", "", "", "",
    "https://models.inference.ai.azure.com"⟩

/-- An openai configuration with no API key set. -/
def exOpenaiCfg : Config :=
  ⟨"openai", "gpt-4o", 4096, "", "", "", "",
    "https://models.inference.ai.azure.com"⟩

/-- A marked hook file (contains the marker). -/
def markedHook : HookFile :=
  ⟨"#!/usr/bin/env bash\n# REVIEWER_AGENT_HOOK\necho reviewing\n", 493⟩

/-- A foreign hook file (no marker). -/
def plainHook : HookFile := ⟨"#!/bin/sh\nmake test\n", 420⟩

/-! ## Helper lemmas -/

theorem string_data_append (s t : String) : (s ++ t).data = s.data ++ t.data := by
  cases s; cases t; rfl

theorem startsWithL_append (p t : List Char) : startsWithL p (p ++ t) = true := by
  induction p with
  | nil => rfl
  | cons a ps ih => simp [startsWithL, ih]

theorem startsWithL_append_right (p : List Char) :
    ∀ s t, startsWithL p s = true → startsWithL p (s ++ t) = true := by
  induction p with
  | nil => intro s t _; rfl
  | cons a ps ih =>
    intro s t h
    cases s with
    | nil => simp [startsWithL] at h
    | cons c cs =>
      by_cases hac : a = c
      · subst hac
        simp only [startsWithL, if_pos rfl, List.cons_append] at h ⊢
        exact ih cs t h
      · simp [startsWithL, hac] at h

theorem containsSub_nil_left : ∀ t : List Char, containsSub [] t = true := by
  intro t
  cases t with
  | nil => rfl
  | cons c cs => simp [containsSub, startsWithL]

theorem containsSub_of_starts (p : List Char) :
    ∀ s, startsWithL p s = true → containsSub p s = true := by
  intro s h
  cases s with
  | nil =>
    cases p with
    | nil => rfl
    | cons a ps => simp [startsWithL] at h
  | cons c cs => simp [containsSub, h]

theorem containsSub_cons_of (p : List Char) (c : Char) (s : List Char)
    (h : containsSub p s = true) : containsSub p (c :: s) = true := by
  simp [containsSub, h]

theorem containsSub_append_left (p a s : List Char)
    (h : containsSub p s = true) : containsSub p (a ++ s) = true := by
  induction a with
  | nil => exact h
  | cons c cs ih => exact containsSub_cons_of _ _ _ ih

theorem containsSub_append_right (p s t : List Char)
    (h : containsSub p s = true) : containsSub p (s ++ t) = true := by
  induction s with
  | nil =>
    have hp : p = [] := by
      cases p with
      | nil => rfl
      | cons a ps => simp [containsSub] at h
    subst hp
    exact containsSub_nil_left t
  | cons c cs ih =>
    simp only [containsSub, List.cons_append, Bool.or_eq_true] at h ⊢
    cases h with
    | inl h => exact Or.inl (startsWithL_append_right p (c :: cs) t h)
    | inr h => exact Or.inr (ih h)

theorem containsSub_self_append (p t : List Char) : containsSub p (p ++ t) = true :=
  containsSub_of_starts p (p ++ t) (startsWithL_append p t)

/-- After any `install_hook` run the hook file exists and contains the marker
(provided the rendered template contains it, as the spec requires). -/
theorem install_result_marked (rendered : String) (cm : Nat) (st : Option HookFile)
    (h : containsSub MARKER.data rendered.data = true) :
    ∃ f : HookFile, install_hook rendered cm st = some f ∧
      containsSub MARKER.data f.content.data = true := by
  cases st with
  | none =>
    refine ⟨⟨"#!/usr/bin/env bash\n" ++ MARKER ++ "\n" ++ rendered ++ "\n",
      execBits cm⟩, rfl, ?_⟩
    show containsSub MARKER.data
      ("#!/usr/bin/env bash\n" ++ MARKER ++ "\n" ++ rendered ++ "\n").data = true
    simp only [string_data_append, List.append_assoc]
    exact containsSub_append_left _ _ _ (containsSub_self_append _ _)
  | some f0 =>
    by_cases hf : containsSub MARKER.data f0.content.data = true
    · exact ⟨f0, by simp [install_hook, hf], hf⟩
    · refine ⟨⟨f0.content ++ "\n" ++ rendered ++ "\n", execBits f0.mode⟩, ?_, ?_⟩
      · simp [install_hook, hf]
      · show containsSub MARKER.data (f0.content ++ "\n" ++ rendered ++ "\n").data = true
        simp only [string_data_append, List.append_assoc]
        refine containsSub_append_left _ _ _ ?_
        refine containsSub_append_left _ _ _ ?_
        exact containsSub_append_right _ _ _ h

/-- The budget of `_input_char_budget` only ever takes three values. -/
theorem budget_cases (cfg : Config) :
    _input_char_budget cfg = 100000 ∨ _input_char_budget cfg = 30400 ∨
      _input_char_budget cfg = 14400 := by
  unfold _input_char_budget _MODEL_INPUT_LIMITS _DEFAULT_INPUT_LIMIT
  repeat' split
  all_goals decide

/-- Every output cap looked up by `_effective_max_output_tokens` is 4000. -/
theorem outputCap_4000 (m : String) :
    (_MODEL_OUTPUT_LIMITS m).getD _DEFAULT_OUTPUT_LIMIT = 4000 := by
  unfold _MODEL_OUTPUT_LIMITS _DEFAULT_OUTPUT_LIMIT
  repeat' split
  all_goals rfl

/-! ## Claims -/

/-- C1: for every string and every character budget produced by
`_input_char_budget` and the 70%/15%/15% split, if the text is strictly
longer than the budget then `_truncate` yields a result of length exactly
`budget + 36` whose last 36 characters are exactly the marker
"\n\n... [truncated to fit token limit]". -/
theorem C1_truncate_appends_marker (cfg : Config) (text : List Char) (b : Nat)
    (hb : b = diff_budget cfg ∨ b = lint_budget cfg ∨ b = fmt_budget cfg)
    (hlen : b < text.length) :
    (_truncate text b).length = b + truncMarker.length ∧
    (_truncate text b).drop b = truncMarker := by
  clear hb
  have hnle : ¬ text.length ≤ b := not_le.mpr hlen
  have htk : (text.take b).length = b := by
    rw [List.length_take, Nat.min_eq_left hlen.le]
  unfold _truncate
  rw [if_neg hnle]
  refine ⟨?_, ?_⟩
  · rw [List.length_append, htk]
  · have hdrop := List.drop_left (text.take b) truncMarker
    rwa [htk] at hdrop

set_option maxRecDepth 40000 in
/-- Witness for C1: the github/gpt-5 configuration has `fmt_budget = 2160`; a
2161-character text is truncated to length 2160 + 36 ending in the marker. -/
theorem C1_truncate_appends_marker_wit :
    (_truncate (List.replicate 2161 'a') (fmt_budget exGithubCfg)).length =
      fmt_budget exGithubCfg + truncMarker.length ∧
    (_truncate (List.replicate 2161 'a') (fmt_budget exGithubCfg)).drop
      (fmt_budget exGithubCfg) = truncMarker :=
  C1_truncate_appends_marker exGithubCfg (List.replicate 2161 'a')
    (fmt_budget exGithubCfg) (Or.inr (Or.inr rfl))
    (by simp only [List.length_replicate]; decide)

/-- C2: `_truncate` is the identity on every text whose length is at most the
budget. -/
theorem C2_truncate_id_under_budget (text : List Char) (budget : Nat)
    (h : text.length ≤ budget) : _truncate text budget = text := by
  unfold _truncate
  rw [if_pos h]

/-- Witness for C2 at a concrete short input. -/
theorem C2_truncate_id_under_budget_wit :
    _truncate ['a', 'b', 'c'] 5 = ['a', 'b', 'c'] :=
  C2_truncate_id_under_budget ['a', 'b', 'c'] 5 (by decide)

/-- C3: the per-message character budget is the deterministic formula
(100000 for azure, otherwise `4 * max(input_limit - 400, 500)`); the message
builder allocates exactly `⌊0.70 * budget⌋` to the diff and `⌊0.15 * budget⌋`
to each of lint and format-check output (the CPython binary64 products round
to these exact floors at every reachable budget); and all three allocations
are always strictly positive, so the "budget would go non-positive" case
never arises (the conditional fallback clause is vacuous). -/
theorem C3_budget_formula_and_split (cfg : Config) :
    (cfg.LLM_PROVIDER = "azure" → _input_char_budget cfg = 100000) ∧
    (cfg.LLM_PROVIDER ≠ "azure" →
      _input_char_budget cfg =
        (max ((_MODEL_INPUT_LIMITS cfg.REVIEWER_MODEL).getD _DEFAULT_INPUT_LIMIT - 400)
          500) * 4) ∧
    diff_budget cfg = 7 * _input_char_budget cfg / 10 ∧
    lint_budget cfg = 3 * _input_char_budget cfg / 20 ∧
    fmt_budget cfg = 3 * _input_char_budget cfg / 20 ∧
    0 < diff_budget cfg ∧ 0 < lint_budget cfg ∧ 0 < fmt_budget cfg := by
  have hb := budget_cases cfg
  refine ⟨fun h => by simp [_input_char_budget, h],
    fun h => by simp [_input_char_budget, h], ?_, ?_, ?_, ?_, ?_, ?_⟩ <;>
    (simp only [diff_budget, lint_budget, fmt_budget]
     rcases hb with h | h | h <;> rw [h] <;> decide)

/-- Witness for C3: at the azure configuration the budget is 100000 and the
split is 70000 / 15000 / 15000. -/
theorem C3_budget_formula_and_split_wit :
    _input_char_budget exAzureCfg = 100000 ∧ diff_budget exAzureCfg = 70000 ∧
      lint_budget exAzureCfg = 15000 := by
  have h := C3_budget_formula_and_split exAzureCfg
  refine ⟨h.1 rfl, ?_, ?_⟩
  · rw [h.2.2.1, h.1 rfl]
  · rw [h.2.2.2.1, h.1 rfl]

/-- C4: with the required credential variables missing (azure with
`AZURE_API_KEY` or `AZURE_ENDPOINT` empty; github with `GITHUB_TOKEN` empty;
openai with `OPENAI_API_KEY` empty or starting with "sk-..."),
`run_review` deterministically returns the corresponding error string
prefixed with "ERROR: " — the `RuntimeError` is caught and returned, not
raised — before the gather/network phase is ever reached. -/
theorem C4_missing_creds_error_return (cfg : Config) :
    (cfg.LLM_PROVIDER = "azure" →
      cfg.AZURE_API_KEY = "" ∨ cfg.AZURE_ENDPOINT = "" →
      run_review_start cfg = .errorReturn ("ERROR: " ++ azureCredErr)) ∧
    (cfg.LLM_PROVIDER = "github" → cfg.GITHUB_TOKEN = "" →
      run_review_start cfg = .errorReturn ("ERROR: " ++ githubCredErr)) ∧
    (cfg.LLM_PROVIDER = "openai" →
      cfg.OPENAI_API_KEY = "" ∨
        startsWithL "sk-...".data cfg.OPENAI_API_KEY.data = true →
      run_review_start cfg = .errorReturn ("ERROR: " ++ openaiCredErr)) := by
  refine ⟨fun h hc => ?_, fun h hc => ?_, fun h hc => ?_⟩
  · unfold run_review_start _build_model_client
    rw [h, if_pos rfl, if_pos hc]
  · unfold run_review_start _build_model_client
    rw [h, if_neg (by decide), if_pos rfl, if_pos hc]
  · unfold run_review_start _build_model_client
    rw [h, if_neg (by decide), if_neg (by decide), if_pos hc]

/-- Witness for C4: azure provider with empty credentials. -/
theorem C4_missing_creds_error_return_wit :
    run_review_start exAzureCfg = .errorReturn ("ERROR: " ++ azureCredErr) :=
  (C4_missing_creds_error_return exAzureCfg).1 rfl (Or.inl rfl)

set_option maxRecDepth 10000 in
/-- C5 counterexample: starting from no hook file, two runs of `install_hook`
leave the marker present twice, not exactly once — the fresh-install branch
writes the marker explicitly and the rendered template (which must itself
carry the marker for the append branch to be detectable) contributes the
second occurrence. -/
theorem C5_marker_not_exactly_once :
    countOcc MARKER.data
      (hookContent (install_hook renderedHookModel 420
        (install_hook renderedHookModel 420 none))).data = 2 ∧ (2 : Nat) ≠ 1 :=
  ⟨by decide, by decide⟩

/-- C5 (amended): for every rendered template containing the marker and every
initial hook-file state, running `install_hook` twice leaves the marker
present (at least once) in the hook file, and the second run does not change
the file at all. -/
theorem C5_install_idempotent_marker_present (rendered : String) (cm : Nat)
    (st : Option HookFile) (h : containsSub MARKER.data rendered.data = true) :
    install_hook rendered cm (install_hook rendered cm st) =
      install_hook rendered cm st ∧
    containsSub MARKER.data (hookContent (install_hook rendered cm st)).data =
      true := by
  obtain ⟨f, hf, hm⟩ := install_result_marked rendered cm st h
  rw [hf]
  constructor
  · simp [install_hook, hm]
  · simpa [hookContent] using hm

set_option maxRecDepth 10000 in
/-- Witness for the amended C5 at the modelled template and an absent file. -/
theorem C5_install_idempotent_marker_present_wit :
    install_hook renderedHookModel 420 (install_hook renderedHookModel 420 none) =
      install_hook renderedHookModel 420 none ∧
    containsSub MARKER.data
      (hookContent (install_hook renderedHookModel 420 none)).data = true :=
  C5_install_idempotent_marker_present renderedHookModel 420 none (by decide)

/-- C6: `uninstall_hook` deletes the hook file exactly when it exists and
contains the marker; a file lacking the marker is left completely untouched
(content and mode identical), and an absent file stays absent. -/
theorem C6_uninstall_only_with_marker (f : HookFile) :
    uninstall_hook none = none ∧
    (containsSub MARKER.data f.content.data = true →
      uninstall_hook (some f) = none) ∧
    (containsSub MARKER.data f.content.data = false →
      uninstall_hook (some f) = some f) := by
  refine ⟨rfl, fun h => ?_, fun h => ?_⟩
  · simp [uninstall_hook, h]
  · simp [uninstall_hook, h]

/-- Witness for C6: a marked hook is deleted, a foreign hook is untouched. -/
theorem C6_uninstall_only_with_marker_wit :
    uninstall_hook (some markedHook) = none ∧
    uninstall_hook (some plainHook) = some plainHook :=
  ⟨(C6_uninstall_only_with_marker markedHook).2.1 (by decide),
   (C6_uninstall_only_with_marker plainHook).2.2 (by decide)⟩

/-- C7: a missing ruff binary (`FileNotFoundError`) and a 60-second timeout
(`TimeoutExpired`) are both caught by `_invoke_ruff` and converted to the
descriptive strings "ruff not found at ..." and "ruff timed out after 60 s.";
the function is total, so the run as a whole never fails. -/
theorem C7_ruff_errors_to_strings (ruff_bin repo_path : String)
    (extra_args files : List String) :
    _invoke_ruff ruff_bin extra_args repo_path files .fileNotFound =
      "ruff not found at " ++ ruff_bin ++ ". Install it or set RUFF_BIN in .env." ∧
    _invoke_ruff ruff_bin extra_args repo_path files .timedOut =
      "ruff timed out after 60 s." :=
  ⟨rfl, rfl⟩

/-- C8: the installer CLI exits with status 1 exactly when neither the scan
directory nor the positional arguments yield any repository path; with at
least one positional path it never exits 1, even if every path is skipped as
not being a git repository. -/
theorem C8_installer_exit_code (scanRepos positional : List String)
    (isGitRepo : String → Bool) :
    (scanRepos = [] → positional = [] →
      installerMain scanRepos positional isGitRepo = .exitOne) ∧
    (positional ≠ [] →
      installerMain scanRepos positional isGitRepo ≠ .exitOne) := by
  constructor
  · intro h1 h2
    subst h1; subst h2
    rfl
  · intro hp heq
    unfold installerMain at heq
    by_cases hnil : scanRepos ++ positional = []
    · exact hp (List.append_eq_nil.mp hnil).2
    · rw [if_neg hnil] at heq
      exact MainOutcome.noConfusion heq

/-- Witness for C8: no paths at all exits 1; one non-git path does not. -/
theorem C8_installer_exit_code_wit :
    installerMain [] [] (fun _ => false) = .exitOne ∧
    installerMain [] ["repo1"] (fun _ => false) ≠ .exitOne :=
  ⟨(C8_installer_exit_code [] [] (fun _ => false)).1 rfl rfl,
   (C8_installer_exit_code [] ["repo1"] (fun _ => false)).2 (by decide)⟩

/-- C9: for the github and openai providers the output-token limit passed to
the model client is `min(MAX_TOKENS, per-model cap)` and hence never exceeds
4000 (the cap of every listed model and of the default); for azure it is
`MAX_TOKENS` unchanged. -/
theorem C9_output_token_cap (cfg : Config) :
    ((cfg.LLM_PROVIDER = "github" ∨ cfg.LLM_PROVIDER = "openai") →
      _effective_max_output_tokens cfg =
        min cfg.MAX_TOKENS
          ((_MODEL_OUTPUT_LIMITS cfg.REVIEWER_MODEL).getD _DEFAULT_OUTPUT_LIMIT) ∧
      _effective_max_output_tokens cfg ≤ 4000) ∧
    (cfg.LLM_PROVIDER = "azure" →
      _effective_max_output_tokens cfg = cfg.MAX_TOKENS) := by
  constructor
  · intro h
    have hne : ¬ cfg.LLM_PROVIDER = "azure" := by
      rcases h with h | h <;> rw [h] <;> decide
    constructor
    · unfold _effective_max_output_tokens
      rw [if_neg hne]
    · unfold _effective_max_output_tokens
      rw [if_neg hne, outputCap_4000]
      exact Nat.min_le_right _ _
  · intro h
    unfold _effective_max_output_tokens
    rw [if_pos h]

/-- Witness for C9 at a github configuration with `MAX_TOKENS = 4096`. -/
theorem C9_output_token_cap_wit :
    _effective_max_output_tokens exGithubCfg =
      min exGithubCfg.MAX_TOKENS
        ((_MODEL_OUTPUT_LIMITS exGithubCfg.REVIEWER_MODEL).getD
          _DEFAULT_OUTPUT_LIMIT) ∧
    _effective_max_output_tokens exGithubCfg ≤ 4000 :=
  (C9_output_token_cap exGithubCfg).1 (Or.inl rfl)

/-- C10: when no changed file both ends in ".py" and exists under the
repository root, `run_ruff_check` and `run_ruff_format_check` return exactly
their skip messages and the ruff subprocess is never invoked. -/
theorem C10_no_python_files_skip (fsExists : String → String → Bool)
    (repo_path : String) (files : List String)
    (h : ∀ f ∈ files, ¬(endsWithStr f ".py" = true ∧ fsExists repo_path f = true)) :
    run_ruff_check fsExists repo_path files =
      .skipped "No Python files changed — linting skipped." ∧
    run_ruff_format_check fsExists repo_path files =
      .skipped "No Python files changed — format check skipped." := by
  have hfil : _filter_python_files fsExists repo_path files = [] := by
    unfold _filter_python_files
    rw [List.filter_eq_nil_iff]
    intro a ha hcontra
    rw [Bool.and_eq_true] at hcontra
    exact h a ha hcontra
  constructor
  · simp [run_ruff_check, hfil]
  · simp [run_ruff_format_check, hfil]

/-- Witness for C10: one non-Python file and one Python file that does not
exist on disk. -/
theorem C10_no_python_files_skip_wit :
    run_ruff_check (fun _ _ => false) "repo" ["README.md", "app.py"] =
      .skipped "No Python files changed — linting skipped." ∧
    run_ruff_format_check (fun _ _ => false) "repo" ["README.md", "app.py"] =
      .skipped "No Python files changed — format check skipped." :=
  C10_no_python_files_skip (fun _ _ => false) "repo" ["README.md", "app.py"]
    (by decide)

end ReviewerAgent
